import Mathlib

set_option maxRecDepth 10000

namespace POML

/-- Whitespace predicate used by the model of Python's `str.strip`
(ASCII whitespace characters). -/
def pyIsSpace (c : Char) : Bool :=
  c = ' ' || c = '\t' || c = '\n' || c = '\r' || c = '\x0B' || c = '\x0C'

/-- Model of Python's `str.strip()` on the character list: drop leading and
trailing whitespace. -/
def stripList (l : List Char) : List Char :=
  ((l.dropWhile pyIsSpace).reverse.dropWhile pyIsSpace).reverse

/-- Model of Python's `value.strip()`. -/
def pyStrip (s : String) : String := String.mk (stripList s.data)

/-- Model of Python's `str.split(sep)` for a one-character separator:
always returns a non-empty list of (possibly empty) segments. -/
def splitList (c : Char) : List Char → List (List Char)
  | [] => [[]]
  | a :: as =>
    if a = c then [] :: splitList c as
    else
      match splitList c as with
      | [] => [[a]]
      | b :: bs => (a :: b) :: bs

/-- Model of Python's `value.split(c)` (one-character separator). -/
def pySplit (s : String) (c : Char) : List String := (splitList c s.data).map String.mk

/-- Model of Python's membership test `c in value` for a single character. -/
def pyIn (c : Char) (s : String) : Bool := s.data.contains c

/-- Model of Python's `str.lower()`: lowercase every character
(ASCII case mapping). -/
def pyLower (s : String) : String := String.mk (s.data.map Char.toLower)

/-- Model of Python's `element.text.strip() if element.text else ''`:
`None` and the empty string are falsy and give `''`; otherwise strip. -/
def pyText : Option String → String
  | none => ""
  | some t => if t = "" then "" else pyStrip t

/-- Parsed document tree node, as produced by the external XML parser:
tag name, attribute list, optional text content, ordered children. -/
inductive Element where
  | mk (tag : String) (attrs : List (String × String)) (text : Option String)
      (children : List Element)

/-- Tag accessor. -/
def Element.tag : Element → String
  | .mk t _ _ _ => t

/-- Attribute-list accessor. -/
def Element.attrs : Element → List (String × String)
  | .mk _ a _ _ => a

/-- Text accessor. -/
def Element.text : Element → Option String
  | .mk _ _ tx _ => tx

/-- Children accessor. -/
def Element.children : Element → List Element
  | .mk _ _ _ ch => ch

/-- Model of `element.get(key, default)`: first binding of `key` in the
attribute mapping, or the default when absent. -/
def Element.get (element : Element) (key dflt : String) : String :=
  (List.lookup key element.attrs).getD dflt

mutual

/-- Embedding of `POMLToVFCParser._process_element` from `POML2VFC.py`:
the list of lines the visitor appends to `self.vfc_lines` for one element
(the buffer is append-only, so the method is equivalent to this pure
function). -/
def process_element : Element → List String
  | .mk tg attrs tx children =>
    let element := Element.mk tg attrs tx children
    let tag := pyLower tg
    if tag = "poml" then
      process_children children
    else if tag = "let" then
      let name := Element.get element "name" ""
      let value := Element.get element "value" ""
      (if pyIn '\n' value then
        let lines := pySplit (pyStrip value) '\n'
        let first_line := pyStrip (lines.headD "")
        ("set(name=\"" ++ name ++ "\" value=\"" ++ first_line ++ "\");")
          :: (((lines.drop 1).map pyStrip).filter
                (fun line => line != "" && line != "]")).map
              (fun line => "set(" ++ line ++ ");")
          ++ (if pyStrip (lines.getLastD "") = "]" then ["set(]\");"] else [])
      else
        ["set(name=\"" ++ name ++ "\" value=\"" ++ value ++ "\");"])
      ++ ["end();", ""]
    else if tag = "task" then
      ["input(" ++ pyText tx ++ ");"]
    else if tag = "for" then
      let _each_var := Element.get element "each" ""
      let _in_var := Element.get element "in" ""
      "loop(for each);" :: process_children children ++ ["lend();"]
    else if tag = "if" then
      let condition := Element.get element "condition" ""
      ("branch(if  condition=\"" ++ condition ++ "\");")
        :: "path();" :: process_children children
    else if tag = "elseif" then
      let condition := Element.get element "condition" ""
      ("path(condition=\"" ++ condition ++ "\");") :: process_children children
    else if tag = "else" then
      "path(else);" :: process_children children ++ ["bend();"]
    else if tag = "p" then
      ["output(" ++ pyText tx ++ ");"]
    else
      process_children children

/-- Lines appended for a sequence of sibling elements, in order
(the `for child in element` loops of the source). -/
def process_children : List Element → List String
  | [] => []
  | e :: es => process_element e ++ process_children es

end

/-- Prefix test on character lists: does the second list start with the
first one? -/
def leadsWith : List Char → List Char → Bool
  | [], _ => true
  | _ :: _, [] => false
  | a :: as, b :: bs => if a = b then leadsWith as bs else false

/-- Line `l` carries the statement token `tok` when it starts with it,
e.g. `lineLeads "loop(" l` recognizes the `loop(...)` token lines. -/
def lineLeads (tok l : String) : Bool := leadsWith tok.data l.data

mutual

/-- Number of elements with (lowercased) tag `t` that the visitor actually
reaches: children of `let`, `task` and `p` elements are not walked by
`_process_element`, so they are not counted.  The branch structure mirrors
the dispatch of `process_element`. -/
def numVisited (t : String) : Element → Nat
  | .mk tg _ _ children =>
    let tag := pyLower tg
    let self : Nat := if tag = t then 1 else 0
    if tag = "poml" then self + numVisitedList t children
    else if tag = "let" then self
    else if tag = "task" then self
    else if tag = "for" then self + numVisitedList t children
    else if tag = "if" then self + numVisitedList t children
    else if tag = "elseif" then self + numVisitedList t children
    else if tag = "else" then self + numVisitedList t children
    else if tag = "p" then self
    else self + numVisitedList t children

/-- List version of `numVisited`. -/
def numVisitedList (t : String) : List Element → Nat
  | [] => 0
  | e :: es => numVisited t e + numVisitedList t es

end

mutual

/-- Does the tree contain an element with (lowercased) tag `t` anywhere,
including under leaves the visitor does not walk? -/
def containsTag (t : String) : Element → Bool
  | .mk tg _ _ children => pyLower tg = t || containsTagList t children

/-- List version of `containsTag`. -/
def containsTagList (t : String) : List Element → Bool
  | [] => false
  | e :: es => containsTag t e || containsTagList t es

end

/-- Embedding of `POMLToVFCParser._add_header`: the six header lines.  The
wall-clock timestamp `now.strftime(...)` is an input of the conversion and
is modelled by the pre-formatted string `time_str`. -/
def add_header (filename time_str : String) : List String :=
  [";  IRL FlowCode Version: Version 10.0",
   ";  c1995-2015: Visual Flow Coder by 2LResearch",
   ";",
   ";  File Name : " ++ filename,
   ";  File Date : " ++ time_str,
   ""]

/-- Embedding of `POMLToVFCParser._add_footer`: the fixed closing block. -/
def add_footer : List String :=
  ["end();",
   "",
   "",
   "",
   ";INSECTA EMBEDDED SESSION INFORMATION",
   "; 255 16777215 65280 16777088 16711680 13158600 13158600 0 255 255 9895835 6946660 3289650",
   ";       //   ...",
   "; notepad.exe",
   ";INSECTA EMBEDDED ALTSESSION INFORMATION",
   "; 1286 256 1272 1162 0 160   632   226    default.key  0"]

/-- Full line buffer of a successful conversion of the document `root`:
header, visitor output, footer. -/
def convert_lines (output_filename time_str : String) (root : Element) : List String :=
  add_header output_filename time_str ++ process_element root ++ add_footer

/-- Mutable state of a `POMLToVFCParser` instance: the line buffer and the
(unused) indentation counter. -/
structure POMLToVFCParser where
  vfc_lines : List String
  indent_level : Nat

/-- Constructor state of `POMLToVFCParser.__init__`. -/
def POMLToVFCParser.init : POMLToVFCParser := ⟨[], 0⟩

/-- Embedding of `POMLToVFCParser.parse`.  The external XML parser
`ET.fromstring` (the Document Parser collaborator) is modelled abstractly
by the argument `fromstring`, which yields either a parse diagnostic or
the parsed root element; the method resets the instance state, emits the
header, and either propagates the parse failure as a conversion-level
error message (`ValueError` with the `Invalid POML XML:` text) or returns
the joined line buffer.  The result is the final instance state paired
with the outcome. -/
def POMLToVFCParser.parse (self : POMLToVFCParser)
    (fromstring : String → Except String Element)
    (poml_content : String) (output_filename : String) (time_str : String) :
    POMLToVFCParser × Except String String :=
  let self := { self with vfc_lines := [], indent_level := 0 }
  let self := { self with vfc_lines := self.vfc_lines ++ add_header output_filename time_str }
  match fromstring poml_content with
  | Except.error msg => (self, Except.error ("Invalid POML XML: " ++ msg))
  | Except.ok root =>
    let self := { self with
      vfc_lines := self.vfc_lines ++ process_element root ++ add_footer }
    (self, Except.ok (String.intercalate "\n" self.vfc_lines))

end POML

namespace POML

/-- A list starts with itself followed by anything. -/
theorem leadsWith_append (p q : List Char) : leadsWith p (p ++ q) = true := by
  induction p with
  | nil => simp [leadsWith]
  | cons a as ih => simp [leadsWith, ih]

/-- Two strings whose first characters differ do not stand in the
token-head relation. -/
theorem lineLeads_of_data {tok l : String} {c d : Char} {ct cl : List Char}
    (htok : tok.data = c :: ct) (hl : l.data = d :: cl) (h : ¬ c = d) :
    lineLeads tok l = false := by
  unfold lineLeads
  rw [htok, hl]
  simp [leadsWith, h]

/-- The head of a non-empty `dropWhile` result fails the predicate. -/
theorem dropWhile_head_false (p : Char → Bool) :
    ∀ (l : List Char) {c : Char} {t : List Char}, l.dropWhile p = c :: t → p c = false := by
  intro l
  induction l with
  | nil => intro c t h; simp [List.dropWhile] at h
  | cons a as ih =>
    intro c t h
    by_cases hp : p a
    · rw [List.dropWhile_cons_of_pos hp] at h
      exact ih h
    · rw [List.dropWhile_cons_of_neg hp] at h
      cases h
      simpa using hp

/-- The first character of a stripped list is not whitespace. -/
theorem stripList_head {l : List Char} {c : Char} {t : List Char}
    (h : stripList l = c :: t) : pyIsSpace c = false := by
  unfold stripList at h
  have hsuf : (l.dropWhile pyIsSpace).reverse.dropWhile pyIsSpace
      <:+ (l.dropWhile pyIsSpace).reverse := List.dropWhile_suffix _
  have hpre : ((l.dropWhile pyIsSpace).reverse.dropWhile pyIsSpace).reverse
      <+: l.dropWhile pyIsSpace := by
    have := List.reverse_prefix.mpr hsuf
    simpa using this
  rw [h] at hpre
  obtain ⟨r, hr⟩ := hpre
  have : l.dropWhile pyIsSpace = c :: (t ++ r) := by
    rw [← hr]; simp
  exact dropWhile_head_false pyIsSpace l this

/-- Stripping a list that starts with a non-whitespace character yields a
non-empty list. -/
theorem stripList_ne_nil {c : Char} (h : pyIsSpace c = false) (b : List Char) :
    stripList (c :: b) ≠ [] := by
  unfold stripList
  rw [List.dropWhile_cons_of_neg (by simp [h])]
  intro hnil
  rw [List.reverse_eq_nil_iff, List.dropWhile_eq_nil_iff] at hnil
  have := hnil c (by simp)
  rw [h] at this
  exact Bool.false_ne_true this

/-- Stripping an all-whitespace list yields the empty list. -/
theorem stripList_all_space {l : List Char} (h : ∀ a ∈ l, pyIsSpace a) :
    stripList l = [] := by
  unfold stripList
  rw [List.dropWhile_eq_nil_iff.mpr h]
  simp

/-- Splitting never produces an empty list of segments. -/
theorem splitList_ne_nil (c : Char) : ∀ l : List Char, splitList c l ≠ [] := by
  intro l
  induction l with
  | nil => simp [splitList]
  | cons a as ih =>
    unfold splitList
    by_cases h : a = c
    · simp [h]
    · simp only [if_neg h]
      rcases hs : splitList c as with _ | ⟨b, bs⟩
      · exact absurd hs ih
      · simp

/-- Splitting a list whose head is not the separator prepends that head to
the first segment. -/
theorem splitList_cons_of_ne {a c : Char} (h : ¬ a = c) (as : List Char) :
    ∃ b bs, splitList c as = b :: bs ∧ splitList c (a :: as) = (a :: b) :: bs := by
  rcases hs : splitList c as with _ | ⟨b, bs⟩
  · exact absurd hs (splitList_ne_nil c as)
  · refine ⟨b, bs, rfl, ?_⟩
    unfold splitList
    rw [if_neg h, hs]

/-- The code's first emitted line for a multi-line `let`
(`lines[0].strip()`) coincides with the first non-empty trimmed line of
the split (empty when the whole value is whitespace): the initial strip
guarantees the first segment starts with a non-whitespace character. -/
theorem first_line_eq (value : String) :
    pyStrip ((pySplit (pyStrip value) '\n').headD "")
      = (((pySplit (pyStrip value) '\n').map pyStrip).filter
          (fun l => l != "")).headD "" := by
  rcases hsv : stripList value.data with _ | ⟨c, t⟩
  · have h1 : pyStrip value = String.mk [] := by unfold pyStrip; rw [hsv]
    rw [h1]
    decide
  · have hc : pyIsSpace c = false := stripList_head hsv
    have hcn : ¬ c = '\n' := by
      intro h
      rw [h] at hc
      simp [pyIsSpace] at hc
    have h1 : pyStrip value = String.mk (c :: t) := by unfold pyStrip; rw [hsv]
    obtain ⟨b, bs, _, hsplit⟩ := splitList_cons_of_ne hcn t
    have h2 : pySplit (pyStrip value) '\n' = String.mk (c :: b) :: bs.map String.mk := by
      unfold pySplit
      rw [h1]
      show (splitList '\n' (c :: t)).map String.mk = _
      rw [hsplit]
      rfl
    rw [h2]
    have h3 : stripList (c :: b) ≠ [] := stripList_ne_nil hc b
    have h4 : (pyStrip (String.mk (c :: b)) != "") = true := by
      simp only [bne_iff_ne, ne_eq, pyStrip, String.ext_iff]
      simpa using h3
    simp [List.filter_cons, h4]

/-- Token-head tests on the fixed statement lines. -/
theorem ll_closed :
    (lineLeads "loop(" "set(]\");" = false) ∧ (lineLeads "lend(" "set(]\");" = false)
    ∧ (lineLeads "branch(" "set(]\");" = false) ∧ (lineLeads "bend(" "set(]\");" = false)
    ∧ (lineLeads "loop(" "end();" = false) ∧ (lineLeads "lend(" "end();" = false)
    ∧ (lineLeads "branch(" "end();" = false) ∧ (lineLeads "bend(" "end();" = false)
    ∧ (lineLeads "loop(" "" = false) ∧ (lineLeads "lend(" "" = false)
    ∧ (lineLeads "branch(" "" = false) ∧ (lineLeads "bend(" "" = false)
    ∧ (lineLeads "loop(" "loop(for each);" = true) ∧ (lineLeads "lend(" "loop(for each);" = false)
    ∧ (lineLeads "branch(" "loop(for each);" = false) ∧ (lineLeads "bend(" "loop(for each);" = false)
    ∧ (lineLeads "loop(" "lend();" = false) ∧ (lineLeads "lend(" "lend();" = true)
    ∧ (lineLeads "branch(" "lend();" = false) ∧ (lineLeads "bend(" "lend();" = false)
    ∧ (lineLeads "loop(" "path();" = false) ∧ (lineLeads "lend(" "path();" = false)
    ∧ (lineLeads "branch(" "path();" = false) ∧ (lineLeads "bend(" "path();" = false)
    ∧ (lineLeads "loop(" "path(else);" = false) ∧ (lineLeads "lend(" "path(else);" = false)
    ∧ (lineLeads "branch(" "path(else);" = false) ∧ (lineLeads "bend(" "path(else);" = false)
    ∧ (lineLeads "loop(" "bend();" = false) ∧ (lineLeads "lend(" "bend();" = false)
    ∧ (lineLeads "branch(" "bend();" = false) ∧ (lineLeads "bend(" "bend();" = true) := by
  decide

/-- Token-head tests on the first `set` line of a `let` element. -/
theorem ll_set_name (n v : String) :
    (lineLeads "loop(" ("set(name=\"" ++ n ++ "\" value=\"" ++ v ++ "\");") = false)
    ∧ (lineLeads "lend(" ("set(name=\"" ++ n ++ "\" value=\"" ++ v ++ "\");") = false)
    ∧ (lineLeads "branch(" ("set(name=\"" ++ n ++ "\" value=\"" ++ v ++ "\");") = false)
    ∧ (lineLeads "bend(" ("set(name=\"" ++ n ++ "\" value=\"" ++ v ++ "\");") = false) :=
  ⟨lineLeads_of_data rfl rfl (by decide), lineLeads_of_data rfl rfl (by decide),
   lineLeads_of_data rfl rfl (by decide), lineLeads_of_data rfl rfl (by decide)⟩

/-- Token-head tests on the continuation `set` lines of a `let` element. -/
theorem ll_set_mid (x : String) :
    (lineLeads "loop(" ("set(" ++ x ++ ");") = false)
    ∧ (lineLeads "lend(" ("set(" ++ x ++ ");") = false)
    ∧ (lineLeads "branch(" ("set(" ++ x ++ ");") = false)
    ∧ (lineLeads "bend(" ("set(" ++ x ++ ");") = false) :=
  ⟨lineLeads_of_data rfl rfl (by decide), lineLeads_of_data rfl rfl (by decide),
   lineLeads_of_data rfl rfl (by decide), lineLeads_of_data rfl rfl (by decide)⟩

/-- Token-head tests on `input(...)` lines. -/
theorem ll_input (t : String) :
    (lineLeads "loop(" ("input(" ++ t ++ ");") = false)
    ∧ (lineLeads "lend(" ("input(" ++ t ++ ");") = false)
    ∧ (lineLeads "branch(" ("input(" ++ t ++ ");") = false)
    ∧ (lineLeads "bend(" ("input(" ++ t ++ ");") = false) :=
  ⟨lineLeads_of_data rfl rfl (by decide), lineLeads_of_data rfl rfl (by decide),
   lineLeads_of_data rfl rfl (by decide), lineLeads_of_data rfl rfl (by decide)⟩

/-- Token-head tests on `output(...)` lines. -/
theorem ll_output (t : String) :
    (lineLeads "loop(" ("output(" ++ t ++ ");") = false)
    ∧ (lineLeads "lend(" ("output(" ++ t ++ ");") = false)
    ∧ (lineLeads "branch(" ("output(" ++ t ++ ");") = false)
    ∧ (lineLeads "bend(" ("output(" ++ t ++ ");") = false) :=
  ⟨lineLeads_of_data rfl rfl (by decide), lineLeads_of_data rfl rfl (by decide),
   lineLeads_of_data rfl rfl (by decide), lineLeads_of_data rfl rfl (by decide)⟩

/-- Token-head tests on the `branch(if ...)` line of an `if` element: it
carries exactly the `branch` token. -/
theorem ll_branch_line (c : String) :
    (lineLeads "loop(" ("branch(if  condition=\"" ++ c ++ "\");") = false)
    ∧ (lineLeads "lend(" ("branch(if  condition=\"" ++ c ++ "\");") = false)
    ∧ (lineLeads "branch(" ("branch(if  condition=\"" ++ c ++ "\");") = true)
    ∧ (lineLeads "bend(" ("branch(if  condition=\"" ++ c ++ "\");") = false) := by
  refine ⟨lineLeads_of_data rfl rfl (by decide), lineLeads_of_data rfl rfl (by decide), ?_, ?_⟩
  · have h : ("branch(if  condition=\"" ++ c ++ "\");")
        = "branch(" ++ ("if  condition=\"" ++ c ++ "\");") := rfl
    rw [h]
    have h2 : ("branch(" ++ ("if  condition=\"" ++ c ++ "\");")).data
        = "branch(".data ++ ("if  condition=\"" ++ c ++ "\");").data := rfl
    unfold lineLeads
    rw [h2]
    exact leadsWith_append _ _
  · have h : ("branch(if  condition=\"" ++ c ++ "\");").data
        = 'b' :: 'r' :: ("anch(if  condition=\"" ++ c ++ "\");").data := rfl
    unfold lineLeads
    rw [h]
    simp [leadsWith]

/-- Token-head tests on the `path(condition=...)` line of an `elseif`. -/
theorem ll_path_cond (c : String) :
    (lineLeads "loop(" ("path(condition=\"" ++ c ++ "\");") = false)
    ∧ (lineLeads "lend(" ("path(condition=\"" ++ c ++ "\");") = false)
    ∧ (lineLeads "branch(" ("path(condition=\"" ++ c ++ "\");") = false)
    ∧ (lineLeads "bend(" ("path(condition=\"" ++ c ++ "\");") = false) :=
  ⟨lineLeads_of_data rfl rfl (by decide), lineLeads_of_data rfl rfl (by decide),
   lineLeads_of_data rfl rfl (by decide), lineLeads_of_data rfl rfl (by decide)⟩

/-- Token-head tests on the file-name header line. -/
theorem ll_header_name (f : String) :
    (lineLeads "loop(" (";  File Name : " ++ f) = false)
    ∧ (lineLeads "lend(" (";  File Name : " ++ f) = false)
    ∧ (lineLeads "branch(" (";  File Name : " ++ f) = false)
    ∧ (lineLeads "bend(" (";  File Name : " ++ f) = false) :=
  ⟨lineLeads_of_data rfl rfl (by decide), lineLeads_of_data rfl rfl (by decide),
   lineLeads_of_data rfl rfl (by decide), lineLeads_of_data rfl rfl (by decide)⟩

/-- Token-head tests on the file-date header line. -/
theorem ll_header_date (t : String) :
    (lineLeads "loop(" (";  File Date : " ++ t) = false)
    ∧ (lineLeads "lend(" (";  File Date : " ++ t) = false)
    ∧ (lineLeads "branch(" (";  File Date : " ++ t) = false)
    ∧ (lineLeads "bend(" (";  File Date : " ++ t) = false) :=
  ⟨lineLeads_of_data rfl rfl (by decide), lineLeads_of_data rfl rfl (by decide),
   lineLeads_of_data rfl rfl (by decide), lineLeads_of_data rfl rfl (by decide)⟩

end POML

namespace POML

theorem pe_poml (tg : String) (attrs : List (String × String)) (tx : Option String)
    (ch : List Element) (h : pyLower tg = "poml") :
    process_element (Element.mk tg attrs tx ch) = process_children ch := by
  simp only [process_element]
  rw [h]
  simp

theorem pe_for (tg : String) (attrs : List (String × String)) (tx : Option String)
    (ch : List Element) (h : pyLower tg = "for") :
    process_element (Element.mk tg attrs tx ch)
      = "loop(for each);" :: process_children ch ++ ["lend();"] := by
  simp only [process_element]
  rw [h]
  simp

theorem pe_let_single (tg : String) (attrs : List (String × String)) (tx : Option String)
    (ch : List Element) (h : pyLower tg = "let")
    (hnl : pyIn '\n' (Element.get (Element.mk tg attrs tx ch) "value" "") = false) :
    process_element (Element.mk tg attrs tx ch)
      = ["set(name=\"" ++ Element.get (Element.mk tg attrs tx ch) "name" ""
          ++ "\" value=\"" ++ Element.get (Element.mk tg attrs tx ch) "value" "" ++ "\");",
         "end();", ""] := by
  simp only [process_element]
  rw [h]
  simp [hnl]

theorem pe_let_multi (tg : String) (attrs : List (String × String)) (tx : Option String)
    (ch : List Element) (h : pyLower tg = "let")
    (hnl : pyIn '\n' (Element.get (Element.mk tg attrs tx ch) "value" "") = true) :
    process_element (Element.mk tg attrs tx ch)
      = ("set(name=\"" ++ Element.get (Element.mk tg attrs tx ch) "name" "" ++ "\" value=\""
          ++ pyStrip ((pySplit (pyStrip (Element.get (Element.mk tg attrs tx ch) "value" "")) '\n').headD "")
          ++ "\");")
        :: ((((pySplit (pyStrip (Element.get (Element.mk tg attrs tx ch) "value" "")) '\n').drop 1).map
              pyStrip).filter (fun line => line != "" && line != "]")).map
            (fun line => "set(" ++ line ++ ");")
        ++ (if pyStrip ((pySplit (pyStrip (Element.get (Element.mk tg attrs tx ch) "value" "")) '\n').getLastD "")
              = "]" then ["set(]\");"] else [])
        ++ ["end();", ""] := by
  simp only [process_element]
  rw [h]
  simp [hnl]

end POML

namespace POML

theorem pe_task (tg : String) (attrs : List (String × String)) (tx : Option String)
    (ch : List Element) (h : pyLower tg = "task") :
    process_element (Element.mk tg attrs tx ch) = ["input(" ++ pyText tx ++ ");"] := by
  simp only [process_element]
  rw [h]
  simp

theorem pe_if (tg : String) (attrs : List (String × String)) (tx : Option String)
    (ch : List Element) (h : pyLower tg = "if") :
    process_element (Element.mk tg attrs tx ch)
      = ("branch(if  condition=\"" ++ Element.get (Element.mk tg attrs tx ch) "condition" "" ++ "\");")
        :: "path();" :: process_children ch := by
  simp only [process_element]
  rw [h]
  simp

theorem pe_elseif (tg : String) (attrs : List (String × String)) (tx : Option String)
    (ch : List Element) (h : pyLower tg = "elseif") :
    process_element (Element.mk tg attrs tx ch)
      = ("path(condition=\"" ++ Element.get (Element.mk tg attrs tx ch) "condition" "" ++ "\");")
        :: process_children ch := by
  simp only [process_element]
  rw [h]
  simp

theorem pe_else (tg : String) (attrs : List (String × String)) (tx : Option String)
    (ch : List Element) (h : pyLower tg = "else") :
    process_element (Element.mk tg attrs tx ch)
      = "path(else);" :: process_children ch ++ ["bend();"] := by
  simp only [process_element]
  rw [h]
  simp

theorem pe_p (tg : String) (attrs : List (String × String)) (tx : Option String)
    (ch : List Element) (h : pyLower tg = "p") :
    process_element (Element.mk tg attrs tx ch) = ["output(" ++ pyText tx ++ ");"] := by
  simp only [process_element]
  rw [h]
  simp

theorem pe_unknown (tg : String) (attrs : List (String × String)) (tx : Option String)
    (ch : List Element) (h1 : ¬ pyLower tg = "poml") (h2 : ¬ pyLower tg = "let")
    (h3 : ¬ pyLower tg = "task") (h4 : ¬ pyLower tg = "for") (h5 : ¬ pyLower tg = "if")
    (h6 : ¬ pyLower tg = "elseif") (h7 : ¬ pyLower tg = "else") (h8 : ¬ pyLower tg = "p") :
    process_element (Element.mk tg attrs tx ch) = process_children ch := by
  simp only [process_element]
  simp [h1, h2, h3, h4, h5, h6, h7, h8]

theorem nv_eval (t tg : String) (attrs : List (String × String)) (tx : Option String)
    (ch : List Element) :
    numVisited t (Element.mk tg attrs tx ch)
      = (if pyLower tg = t then 1 else 0)
        + (if pyLower tg = "let" ∨ pyLower tg = "task" ∨ pyLower tg = "p" then 0
           else numVisitedList t ch) := by
  simp only [numVisited]
  split_ifs <;> simp_all

end POML

namespace POML

set_option maxHeartbeats 1000000

mutual

theorem tok_counts (e : Element) :
    (process_element e).countP (lineLeads "loop(") = numVisited "for" e
    ∧ (process_element e).countP (lineLeads "lend(") = numVisited "for" e
    ∧ (process_element e).countP (lineLeads "branch(") = numVisited "if" e
    ∧ (process_element e).countP (lineLeads "bend(") = numVisited "else" e := by
  cases e with
  | mk tg attrs tx ch =>
    obtain ⟨hc1, hc2, hc3, hc4⟩ := tok_counts_list ch
    by_cases h1 : pyLower tg = "poml"
    · simp [pe_poml tg attrs tx ch h1, nv_eval, h1, hc1, hc2, hc3, hc4]
    by_cases h2 : pyLower tg = "let"
    · by_cases hnl : pyIn '\n' (Element.get (Element.mk tg attrs tx ch) "value" "") = true
      · by_cases hcl : pyStrip ((pySplit (pyStrip (Element.get (Element.mk tg attrs tx ch) "value" "")) '\n').getLastD "") = "]"
        · simp [pe_let_multi tg attrs tx ch h2 hnl, nv_eval, h2, hcl, List.countP_cons,
            List.countP_append, List.countP_map, List.countP_false, Function.comp,
            ll_set_name, ll_set_mid, ll_closed]
        · simp [pe_let_multi tg attrs tx ch h2 hnl, nv_eval, h2, hcl, List.countP_cons,
            List.countP_append, List.countP_map, List.countP_false, Function.comp,
            ll_set_name, ll_set_mid, ll_closed]
      · simp [pe_let_single tg attrs tx ch h2 (by simpa using hnl), nv_eval, h2,
          List.countP_cons, ll_set_name, ll_closed]
    by_cases h3 : pyLower tg = "task"
    · simp [pe_task tg attrs tx ch h3, nv_eval, h3, List.countP_cons, ll_input]
    by_cases h4 : pyLower tg = "for"
    · simp [pe_for tg attrs tx ch h4, nv_eval, h4, List.countP_cons, List.countP_append,
        ll_closed, hc1, hc2, hc3, hc4]
      all_goals omega
    by_cases h5 : pyLower tg = "if"
    · simp [pe_if tg attrs tx ch h5, nv_eval, h5, List.countP_cons, ll_branch_line,
        ll_closed, hc1, hc2, hc3, hc4]
      all_goals omega
    by_cases h6 : pyLower tg = "elseif"
    · simp [pe_elseif tg attrs tx ch h6, nv_eval, h6, List.countP_cons, ll_path_cond,
        hc1, hc2, hc3, hc4]
    by_cases h7 : pyLower tg = "else"
    · simp [pe_else tg attrs tx ch h7, nv_eval, h7, List.countP_cons, List.countP_append,
        ll_closed, hc1, hc2, hc3, hc4]
      all_goals omega
    by_cases h8 : pyLower tg = "p"
    · simp [pe_p tg attrs tx ch h8, nv_eval, h8, List.countP_cons, ll_output]
    · simp [pe_unknown tg attrs tx ch h1 h2 h3 h4 h5 h6 h7 h8, nv_eval, h1, h2, h3,
        h4, h5, h6, h7, h8, hc1, hc2, hc3, hc4]

theorem tok_counts_list (f : List Element) :
    (process_children f).countP (lineLeads "loop(") = numVisitedList "for" f
    ∧ (process_children f).countP (lineLeads "lend(") = numVisitedList "for" f
    ∧ (process_children f).countP (lineLeads "branch(") = numVisitedList "if" f
    ∧ (process_children f).countP (lineLeads "bend(") = numVisitedList "else" f := by
  cases f with
  | nil => simp [process_children, numVisitedList]
  | cons e es =>
    obtain ⟨h1, h2, h3, h4⟩ := tok_counts e
    obtain ⟨g1, g2, g3, g4⟩ := tok_counts_list es
    simp [process_children, numVisitedList, List.countP_append, h1, h2, h3, h4,
      g1, g2, g3, g4]

end

end POML

namespace POML

mutual

theorem numVisited_zero (t : String) (e : Element) (h : containsTag t e = false) :
    numVisited t e = 0 := by
  cases e with
  | mk tg attrs tx ch =>
    simp only [containsTag, Bool.or_eq_false_iff] at h
    have hne : ¬ pyLower tg = t := by simpa using h.1
    have hl := numVisitedList_zero t ch h.2
    rw [nv_eval]
    simp [hne, hl]

theorem numVisitedList_zero (t : String) (f : List Element) (h : containsTagList t f = false) :
    numVisitedList t f = 0 := by
  cases f with
  | nil => simp [numVisitedList]
  | cons e es =>
    simp only [containsTagList, Bool.or_eq_false_iff] at h
    have h1 := numVisited_zero t e h.1
    have h2 := numVisitedList_zero t es h.2
    simp [numVisitedList, h1, h2]

end

/-- C5: a `let` whose `value` has no line break emits exactly the single
`set(name=... value=...)` line, then `end();`, then a blank line. -/
theorem c5_single_line_let (tg : String) (attrs : List (String × String))
    (tx : Option String) (ch : List Element) (name value : String)
    (htag : pyLower tg = "let")
    (hname : Element.get (Element.mk tg attrs tx ch) "name" "" = name)
    (hvalue : Element.get (Element.mk tg attrs tx ch) "value" "" = value)
    (hnl : pyIn '\n' value = false) :
    process_element (Element.mk tg attrs tx ch)
      = ["set(name=\"" ++ name ++ "\" value=\"" ++ value ++ "\");", "end();", ""] := by
  subst hname hvalue
  exact pe_let_single tg attrs tx ch htag hnl

theorem c5_witness :
    pyLower "let" = "let"
    ∧ pyIn '\n' "1" = false
    ∧ process_element (Element.mk "let" [("name", "x"), ("value", "1")] none [])
        = ["set(name=\"x\" value=\"1\");", "end();", ""] :=
  ⟨by decide, by decide, by
    rw [c5_single_line_let "let" [("name", "x"), ("value", "1")] none [] "x" "1"
      (by decide) (by decide) (by decide) (by decide)]
    decide⟩

/-- C1: a `let` whose `value` contains a line break emits, in order, a
first `set(name=... value=<first non-empty trimmed line>)` line, one
`set(<line>);` per subsequent non-empty trimmed line other than `]`, the
literal closing line exactly when the last trimmed line is `]`, then
`end();` and a blank line. -/
theorem c1_multiline_let (tg : String) (attrs : List (String × String))
    (tx : Option String) (ch : List Element) (name value : String)
    (htag : pyLower tg = "let")
    (hname : Element.get (Element.mk tg attrs tx ch) "name" "" = name)
    (hvalue : Element.get (Element.mk tg attrs tx ch) "value" "" = value)
    (hnl : pyIn '\n' value = true) :
    process_element (Element.mk tg attrs tx ch)
      = ("set(name=\"" ++ name ++ "\" value=\""
          ++ (((pySplit (pyStrip value) '\n').map pyStrip).filter
              (fun l => l != "")).headD ""
          ++ "\");")
        :: ((((pySplit (pyStrip value) '\n').drop 1).map pyStrip).filter
              (fun line => line != "" && line != "]")).map
            (fun line => "set(" ++ line ++ ");")
        ++ (if pyStrip ((pySplit (pyStrip value) '\n').getLastD "") = "]"
            then ["set(]\");"] else [])
        ++ ["end();", ""] := by
  subst hname hvalue
  rw [pe_let_multi tg attrs tx ch htag hnl, first_line_eq]

theorem c1_witness :
    pyLower "let" = "let"
    ∧ pyIn '\n' "a,\nb,\n]" = true
    ∧ process_element (Element.mk "let" [("name", "arr"), ("value", "a,\nb,\n]")] none [])
        = ["set(name=\"arr\" value=\"a,\");", "set(b,);", "set(]\");", "end();", ""] :=
  ⟨by decide, by decide, by
    rw [c1_multiline_let "let" [("name", "arr"), ("value", "a,\nb,\n]")] none [] "arr"
      "a,\nb,\n]" (by decide) (by decide) (by decide) (by decide)]
    decide⟩

/-- C9: in the multi-line `let` case with last trimmed line `]`, the
closing line appended is exactly the string `set(]");` with its unmatched
double quote, whatever the name and the other lines are. -/
theorem c9_closing_line (tg : String) (attrs : List (String × String))
    (tx : Option String) (ch : List Element) (name value : String)
    (htag : pyLower tg = "let")
    (hname : Element.get (Element.mk tg attrs tx ch) "name" "" = name)
    (hvalue : Element.get (Element.mk tg attrs tx ch) "value" "" = value)
    (hnl : pyIn '\n' value = true)
    (hlast : pyStrip ((pySplit (pyStrip value) '\n').getLastD "") = "]") :
    process_element (Element.mk tg attrs tx ch)
      = ("set(name=\"" ++ name ++ "\" value=\""
          ++ pyStrip ((pySplit (pyStrip value) '\n').headD "") ++ "\");")
        :: ((((pySplit (pyStrip value) '\n').drop 1).map pyStrip).filter
              (fun line => line != "" && line != "]")).map
            (fun line => "set(" ++ line ++ ");")
        ++ ["set(]\");", "end();", ""] := by
  subst hname hvalue
  rw [pe_let_multi tg attrs tx ch htag hnl, if_pos hlast]
  simp

theorem c9_witness :
    pyLower "let" = "let"
    ∧ pyIn '\n' "[1,\n2,\n]" = true
    ∧ pyStrip ((pySplit (pyStrip "[1,\n2,\n]") '\n').getLastD "") = "]"
    ∧ process_element (Element.mk "let" [("name", "ys"), ("value", "[1,\n2,\n]")] none [])
        = ["set(name=\"ys\" value=\"[1,\");", "set(2,);", "set(]\");", "end();", ""] :=
  ⟨by decide, by decide, by decide, by
    rw [c9_closing_line "let" [("name", "ys"), ("value", "[1,\n2,\n]")] none [] "ys"
      "[1,\n2,\n]" (by decide) (by decide) (by decide) (by decide) (by decide)]
    decide⟩

end POML

namespace POML

theorem data_append (a b : String) : (a ++ b).data = a.data ++ b.data := rfl

theorem set_name_line_empty (name : String) :
    "set(name=\"" ++ name ++ "\" value=\"" ++ "\");"
      = "set(name=\"" ++ name ++ "\" value=\"\");" := by
  apply String.ext
  simp only [data_append, List.append_assoc, List.nil_append, List.cons_append]

/-- C10: a `let` whose `value` contains a line break but is entirely
whitespace does not fail: the first line degenerates to the empty string
and the element contributes exactly the `set(name=... value="")` line,
`end();`, and a blank line. -/
theorem c10_whitespace_value (tg : String) (attrs : List (String × String))
    (tx : Option String) (ch : List Element) (name value : String)
    (htag : pyLower tg = "let")
    (hname : Element.get (Element.mk tg attrs tx ch) "name" "" = name)
    (hvalue : Element.get (Element.mk tg attrs tx ch) "value" "" = value)
    (hnl : pyIn '\n' value = true)
    (hws : ∀ a ∈ value.data, pyIsSpace a) :
    process_element (Element.mk tg attrs tx ch)
      = ["set(name=\"" ++ name ++ "\" value=\"\");", "end();", ""] := by
  have hnl2 : pyIn '\n' (Element.get (Element.mk tg attrs tx ch) "value" "") = true := by
    rw [hvalue]; exact hnl
  have hws2 : ∀ a ∈ (Element.get (Element.mk tg attrs tx ch) "value" "").data, pyIsSpace a := by
    rw [hvalue]; exact hws
  have hstrip : pyStrip (Element.get (Element.mk tg attrs tx ch) "value" "") = "" := by
    unfold pyStrip
    rw [stripList_all_space hws2]
  have hsplit : pySplit "" '\n' = [""] := by decide
  have hps : pyStrip "" = "" := by decide
  rw [pe_let_multi tg attrs tx ch htag hnl2, hstrip, hname, hsplit]
  simp [hps, set_name_line_empty]

end POML

namespace POML

theorem c10_witness :
    pyLower "let" = "let"
    ∧ pyIn '\n' " \n " = true
    ∧ (∀ a ∈ (" \n " : String).data, pyIsSpace a)
    ∧ process_element (Element.mk "let" [("name", "w"), ("value", " \n ")] none [])
        = ["set(name=\"w\" value=\"\");", "end();", ""] :=
  ⟨by decide, by decide, by decide, by
    rw [c10_whitespace_value "let" [("name", "w"), ("value", " \n ")] none [] "w" " \n "
      (by decide) (by decide) (by decide) (by decide) (by decide)]
    decide⟩

/-- C7: missing attributes and missing or all-whitespace text never cause
an error: `task` and `p` emit their token with an empty argument, absent
attribute lookups give the empty string, and the emitted `if` and `let`
lines use the empty string where the attribute is absent. -/
theorem c7_missing_defaults :
    (∀ (tg : String) (attrs : List (String × String)) (tx : Option String) (ch : List Element),
      pyLower tg = "task" → (tx = none ∨ ∃ s, tx = some s ∧ pyStrip s = "") →
      process_element (Element.mk tg attrs tx ch) = ["input();"])
    ∧ (∀ (tg : String) (attrs : List (String × String)) (tx : Option String) (ch : List Element),
      pyLower tg = "p" → (tx = none ∨ ∃ s, tx = some s ∧ pyStrip s = "") →
      process_element (Element.mk tg attrs tx ch) = ["output();"])
    ∧ (∀ (element : Element) (key dflt : String),
      List.lookup key element.attrs = none → Element.get element key dflt = dflt)
    ∧ (∀ (tg : String) (attrs : List (String × String)) (tx : Option String) (ch : List Element),
      pyLower tg = "if" → List.lookup "condition" attrs = none →
      process_element (Element.mk tg attrs tx ch)
        = "branch(if  condition=\"\");" :: "path();" :: process_children ch)
    ∧ (∀ (tg : String) (attrs : List (String × String)) (tx : Option String) (ch : List Element),
      pyLower tg = "let" → List.lookup "name" attrs = none →
      List.lookup "value" attrs = none →
      process_element (Element.mk tg attrs tx ch) = ["set(name=\"\" value=\"\");", "end();", ""]) := by
  have htext : ∀ tx : Option String, (tx = none ∨ ∃ s, tx = some s ∧ pyStrip s = "") →
      pyText tx = "" := by
    rintro tx (rfl | ⟨s, rfl, hs⟩)
    · rfl
    · by_cases h : s = "" <;> simp [pyText, h, hs]
  refine ⟨?_, ?_, ?_, ?_, ?_⟩
  · intro tg attrs tx ch htag ht
    rw [pe_task tg attrs tx ch htag, htext tx ht]
    decide
  · intro tg attrs tx ch htag ht
    rw [pe_p tg attrs tx ch htag, htext tx ht]
    decide
  · intro element key dflt h
    simp [Element.get, h]
  · intro tg attrs tx ch htag hc
    rw [pe_if tg attrs tx ch htag]
    simp [Element.get, Element.attrs, hc]
  · intro tg attrs tx ch htag hn hv
    have hget : Element.get (Element.mk tg attrs tx ch) "value" "" = "" := by
      simp [Element.get, Element.attrs, hv]
    rw [pe_let_single tg attrs tx ch htag (by rw [hget]; decide)]
    rw [hget]
    have hgetn : Element.get (Element.mk tg attrs tx ch) "name" "" = "" := by
      simp [Element.get, Element.attrs, hn]
    rw [hgetn]
    decide

theorem c7_witness :
    process_element (Element.mk "task" [] none []) = ["input();"]
    ∧ process_element (Element.mk "p" [] (some "   ") []) = ["output();"]
    ∧ Element.get (Element.mk "for" [("each", "i")] none []) "in" "" = ""
    ∧ process_element (Element.mk "if" [] none []) = ["branch(if  condition=\"\");", "path();"]
    ∧ process_element (Element.mk "let" [] none []) = ["set(name=\"\" value=\"\");", "end();", ""] :=
  ⟨c7_missing_defaults.1 "task" [] none [] (by decide) (Or.inl rfl),
   c7_missing_defaults.2.1 "p" [] (some "   ") [] (by decide)
     (Or.inr ⟨"   ", rfl, by decide⟩),
   c7_missing_defaults.2.2.1 (Element.mk "for" [("each", "i")] none []) "in" "" (by decide),
   by rw [c7_missing_defaults.2.2.2.1 "if" [] none [] (by decide) (by decide)]
      simp [process_children],
   c7_missing_defaults.2.2.2.2 "let" [] none [] (by decide) (by decide) (by decide)⟩

/-- C8: the conversion is a pure function of the input text, target name
and clock: the instance state is fully reset on entry, so the result does
not depend on the initial state, and a second call on the same instance
returns the same outcome as the first. -/
theorem c8_state_reset (st st' : POMLToVFCParser)
    (fromstring : String → Except String Element)
    (poml_content output_filename time_str : String) :
    st.parse fromstring poml_content output_filename time_str
      = st'.parse fromstring poml_content output_filename time_str
    ∧ ((st.parse fromstring poml_content output_filename time_str).1.parse
        fromstring poml_content output_filename time_str).2
      = (st.parse fromstring poml_content output_filename time_str).2 := by
  cases st
  cases st'
  constructor
  · simp [POMLToVFCParser.parse]
  · cases h : fromstring poml_content <;> simp [POMLToVFCParser.parse, h]

end POML

namespace POML

/-- C6: conversion fails, carrying the underlying parse diagnostic in a
conversion-level error, exactly when the external XML parse fails; on
every successfully parsed input it returns the joined output text. -/
theorem c6_parse_contract (fromstring : String → Except String Element)
    (poml_content output_filename time_str : String) :
    (∀ msg, fromstring poml_content = Except.error msg →
      (POMLToVFCParser.init.parse fromstring poml_content output_filename time_str).2
        = Except.error ("Invalid POML XML: " ++ msg))
    ∧ (∀ root, fromstring poml_content = Except.ok root →
      (POMLToVFCParser.init.parse fromstring poml_content output_filename time_str).2
        = Except.ok (String.intercalate "\n" (convert_lines output_filename time_str root)))
    ∧ ((∃ out, (POMLToVFCParser.init.parse fromstring poml_content output_filename
          time_str).2 = Except.ok out)
        ↔ (∃ root, fromstring poml_content = Except.ok root)) := by
  refine ⟨?_, ?_, ?_⟩
  · intro msg h
    simp [POMLToVFCParser.parse, POMLToVFCParser.init, h]
  · intro root h
    simp [POMLToVFCParser.parse, POMLToVFCParser.init, h, convert_lines]
  · cases h : fromstring poml_content <;>
      simp [POMLToVFCParser.parse, POMLToVFCParser.init, h, convert_lines]

theorem c6_witness :
    ((POMLToVFCParser.init.parse
        (fun s => if s = "<poml></poml>" then Except.ok (Element.mk "poml" [] none [])
          else Except.error "syntax error: line 1, column 0")
        "<bad" "converted.py.vfc" "01:13:23 PM - 15:Sep:2025").2
      = Except.error ("Invalid POML XML: " ++ "syntax error: line 1, column 0"))
    ∧ ((POMLToVFCParser.init.parse
        (fun s => if s = "<poml></poml>" then Except.ok (Element.mk "poml" [] none [])
          else Except.error "syntax error: line 1, column 0")
        "<poml></poml>" "converted.py.vfc" "01:13:23 PM - 15:Sep:2025").2
      = Except.ok (String.intercalate "\n" (convert_lines "converted.py.vfc"
          "01:13:23 PM - 15:Sep:2025" (Element.mk "poml" [] none [])))) :=
  ⟨(c6_parse_contract _ _ _ _).1 "syntax error: line 1, column 0" (by rfl),
   (c6_parse_contract _ _ _ _).2.1 (Element.mk "poml" [] none []) (by rfl)⟩

end POML

namespace POML

/-- C2 counterexample: a `for` element nested inside a `let` (a leaf rule:
its children are never walked) contributes no `loop`/`lend` token at all,
so an input document containing a `for` element can have an output with
zero `loop(...)` tokens. -/
theorem c2_counterexample :
    containsTag "for" (Element.mk "poml" [] none
      [Element.mk "let" [("name", "x"), ("value", "1")] none
        [Element.mk "for" [("each", "i"), ("in", "xs")] none []]]) = true
    ∧ (convert_lines "converted.py.vfc" "01:13:23 PM - 15:Sep:2025"
        (Element.mk "poml" [] none
          [Element.mk "let" [("name", "x"), ("value", "1")] none
            [Element.mk "for" [("each", "i"), ("in", "xs")] none []]])).countP
        (lineLeads "loop(") = 0
    ∧ (convert_lines "converted.py.vfc" "01:13:23 PM - 15:Sep:2025"
        (Element.mk "poml" [] none
          [Element.mk "let" [("name", "x"), ("value", "1")] none
            [Element.mk "for" [("each", "i"), ("in", "xs")] none []]])).countP
        (lineLeads "lend(") = 0 := by
  refine ⟨?_, ?_, ?_⟩
  · simp only [containsTag, containsTagList]
    decide
  · simp only [convert_lines, process_element, process_children]
    decide
  · simp only [convert_lines, process_element, process_children]
    decide

/-- C2 (amended): every `for` element the visitor reaches emits exactly
one `loop(for each);` line before, and one `lend();` line after, all the
lines of its descendants; globally, the number of `loop`-token lines and
of `lend`-token lines each equal the number of visited `for` elements. -/
theorem c2_for_loop_lend :
    (∀ (tg : String) (attrs : List (String × String)) (tx : Option String)
        (ch : List Element), pyLower tg = "for" →
      process_element (Element.mk tg attrs tx ch)
        = "loop(for each);" :: process_children ch ++ ["lend();"])
    ∧ (∀ e : Element,
        (process_element e).countP (lineLeads "loop(") = numVisited "for" e
        ∧ (process_element e).countP (lineLeads "lend(") = numVisited "for" e) :=
  ⟨fun tg attrs tx ch h => pe_for tg attrs tx ch h,
   fun e => ⟨(tok_counts e).1, (tok_counts e).2.1⟩⟩

theorem c2_witness :
    pyLower "for" = "for"
    ∧ process_element (Element.mk "for" [("each", "i"), ("in", "xs")] none
        [Element.mk "p" [] (some "x") []])
      = ["loop(for each);", "output(x);", "lend();"]
    ∧ (process_element (Element.mk "for" [("each", "i"), ("in", "xs")] none
        [Element.mk "p" [] (some "x") []])).countP (lineLeads "loop(") = 1 := by
  refine ⟨by decide, ?_, ?_⟩
  · rw [c2_for_loop_lend.1 "for" [("each", "i"), ("in", "xs")] none
      [Element.mk "p" [] (some "x") []] (by decide)]
    simp only [process_children, process_element]
    decide
  · rw [(c2_for_loop_lend.2 (Element.mk "for" [("each", "i"), ("in", "xs")] none
      [Element.mk "p" [] (some "x") []])).1]
    simp only [numVisited, numVisitedList]
    decide

end POML

namespace POML

/-- Token-head tests on the fixed header and footer comment lines. -/
theorem ll_banner :
    (lineLeads "loop(" ";  IRL FlowCode Version: Version 10.0" = false)
    ∧ (lineLeads "lend(" ";  IRL FlowCode Version: Version 10.0" = false)
    ∧ (lineLeads "branch(" ";  IRL FlowCode Version: Version 10.0" = false)
    ∧ (lineLeads "bend(" ";  IRL FlowCode Version: Version 10.0" = false)
    ∧ (lineLeads "loop(" ";  c1995-2015: Visual Flow Coder by 2LResearch" = false)
    ∧ (lineLeads "lend(" ";  c1995-2015: Visual Flow Coder by 2LResearch" = false)
    ∧ (lineLeads "branch(" ";  c1995-2015: Visual Flow Coder by 2LResearch" = false)
    ∧ (lineLeads "bend(" ";  c1995-2015: Visual Flow Coder by 2LResearch" = false)
    ∧ (lineLeads "loop(" ";" = false) ∧ (lineLeads "lend(" ";" = false)
    ∧ (lineLeads "branch(" ";" = false) ∧ (lineLeads "bend(" ";" = false) := by
  decide

/-- The fixed footer contains no loop, lend, branch or bend token. -/
theorem countP_footer :
    (add_footer.countP (lineLeads "loop(") = 0)
    ∧ (add_footer.countP (lineLeads "lend(") = 0)
    ∧ (add_footer.countP (lineLeads "branch(") = 0)
    ∧ (add_footer.countP (lineLeads "bend(") = 0) := by
  decide

/-- The header contains no loop, lend, branch or bend token. -/
theorem countP_header (fn ts : String) :
    ((add_header fn ts).countP (lineLeads "loop(") = 0)
    ∧ ((add_header fn ts).countP (lineLeads "lend(") = 0)
    ∧ ((add_header fn ts).countP (lineLeads "branch(") = 0)
    ∧ ((add_header fn ts).countP (lineLeads "bend(") = 0) := by
  refine ⟨?_, ?_, ?_, ?_⟩ <;>
    simp [add_header, List.countP_cons, ll_banner, ll_closed, ll_header_name, ll_header_date]

/-- C3 counterexample: a document with no `for` and no `if` element can
still produce a `bend();` token, because a bare `else` element emits one
unconditionally. -/
theorem c3_counterexample :
    containsTag "for" (Element.mk "poml" [] none [Element.mk "else" [] none []]) = false
    ∧ containsTag "if" (Element.mk "poml" [] none [Element.mk "else" [] none []]) = false
    ∧ (convert_lines "converted.py.vfc" "01:13:23 PM - 15:Sep:2025"
        (Element.mk "poml" [] none [Element.mk "else" [] none []])).countP
        (lineLeads "bend(") = 1 := by
  refine ⟨?_, ?_, ?_⟩
  · simp only [containsTag, containsTagList]
    decide
  · simp only [containsTag, containsTagList]
    decide
  · simp only [convert_lines, process_element, process_children]
    decide

/-- C3 (amended): a well-formed document containing no `for`, no `if` and
also no `else` element converts to output with zero `loop`, `lend`,
`branch` and `bend` tokens. -/
theorem c3_no_control_tokens (root : Element) (output_filename time_str : String)
    (hfor : containsTag "for" root = false)
    (hif : containsTag "if" root = false)
    (helse : containsTag "else" root = false) :
    ((convert_lines output_filename time_str root).countP (lineLeads "loop(") = 0)
    ∧ ((convert_lines output_filename time_str root).countP (lineLeads "lend(") = 0)
    ∧ ((convert_lines output_filename time_str root).countP (lineLeads "branch(") = 0)
    ∧ ((convert_lines output_filename time_str root).countP (lineLeads "bend(") = 0) := by
  obtain ⟨t1, t2, t3, t4⟩ := tok_counts root
  have h1 := numVisited_zero "for" root hfor
  have h2 := numVisited_zero "if" root hif
  have h3 := numVisited_zero "else" root helse
  refine ⟨?_, ?_, ?_, ?_⟩ <;>
    simp [convert_lines, List.countP_append, t1, t2, t3, t4, h1, h2, h3,
      countP_header, countP_footer]

theorem c3_witness :
    containsTag "for" (Element.mk "poml" [] none
      [Element.mk "let" [("name", "x"), ("value", "1")] none [],
       Element.mk "p" [] (some "hi") []]) = false
    ∧ containsTag "if" (Element.mk "poml" [] none
      [Element.mk "let" [("name", "x"), ("value", "1")] none [],
       Element.mk "p" [] (some "hi") []]) = false
    ∧ containsTag "else" (Element.mk "poml" [] none
      [Element.mk "let" [("name", "x"), ("value", "1")] none [],
       Element.mk "p" [] (some "hi") []]) = false
    ∧ (convert_lines "converted.py.vfc" "01:13:23 PM - 15:Sep:2025"
        (Element.mk "poml" [] none
          [Element.mk "let" [("name", "x"), ("value", "1")] none [],
           Element.mk "p" [] (some "hi") []])).countP (lineLeads "loop(") = 0
    ∧ (convert_lines "converted.py.vfc" "01:13:23 PM - 15:Sep:2025"
        (Element.mk "poml" [] none
          [Element.mk "let" [("name", "x"), ("value", "1")] none [],
           Element.mk "p" [] (some "hi") []])).countP (lineLeads "bend(") = 0 := by
  have h1 : containsTag "for" (Element.mk "poml" [] none
      [Element.mk "let" [("name", "x"), ("value", "1")] none [],
       Element.mk "p" [] (some "hi") []]) = false := by
    simp only [containsTag, containsTagList]
    decide
  have h2 : containsTag "if" (Element.mk "poml" [] none
      [Element.mk "let" [("name", "x"), ("value", "1")] none [],
       Element.mk "p" [] (some "hi") []]) = false := by
    simp only [containsTag, containsTagList]
    decide
  have h3 : containsTag "else" (Element.mk "poml" [] none
      [Element.mk "let" [("name", "x"), ("value", "1")] none [],
       Element.mk "p" [] (some "hi") []]) = false := by
    simp only [containsTag, containsTagList]
    decide
  obtain ⟨g1, g2, g3, g4⟩ := c3_no_control_tokens _ "converted.py.vfc"
    "01:13:23 PM - 15:Sep:2025" h1 h2 h3
  exact ⟨h1, h2, h3, g1, g4⟩

end POML

namespace POML

/-- C4 counterexample: when the `if` branch itself contains a nested
`else` element, a `bend();` line is emitted before the sibling `else`
branch's lines, and the output holds two `bend();` tokens, not one. -/
theorem c4_counterexample :
    process_children
      [Element.mk "if" [("condition", "c")] none [Element.mk "else" [] none []],
       Element.mk "else" [] none []]
      = ["branch(if  condition=\"c\");", "path();", "path(else);", "bend();",
         "path(else);", "bend();"]
    ∧ (convert_lines "converted.py.vfc" "01:13:23 PM - 15:Sep:2025"
        (Element.mk "poml" [] none
          [Element.mk "if" [("condition", "c")] none [Element.mk "else" [] none []],
           Element.mk "else" [] none []])).countP (lineLeads "bend(") = 2 := by
  constructor
  · simp only [process_children, process_element]
    decide
  · simp only [convert_lines, process_element, process_children]
    decide

/-- C4 (amended): for an `if` element followed by a sibling `else`, when
neither branch's children contain an `else` element, the group's lines
end with exactly one `bend();` token placed after all the `else` branch's
lines, and no `bend` token occurs among the earlier lines. -/
theorem c4_if_else_bend (itg etg : String) (iattrs eattrs : List (String × String))
    (itx etx : Option String) (ich ech : List Element)
    (hif : pyLower itg = "if") (helse : pyLower etg = "else")
    (hich : containsTagList "else" ich = false)
    (hech : containsTagList "else" ech = false) :
    process_children [Element.mk itg iattrs itx ich, Element.mk etg eattrs etx ech]
      = (("branch(if  condition=\""
            ++ Element.get (Element.mk itg iattrs itx ich) "condition" "" ++ "\");")
          :: "path();" :: process_children ich
          ++ "path(else);" :: process_children ech) ++ ["bend();"]
    ∧ (("branch(if  condition=\""
            ++ Element.get (Element.mk itg iattrs itx ich) "condition" "" ++ "\");")
          :: "path();" :: process_children ich
          ++ "path(else);" :: process_children ech).countP (lineLeads "bend(") = 0 := by
  constructor
  · simp [process_children, pe_if itg iattrs itx ich hif, pe_else etg eattrs etx ech helse]
  · have hz1 := numVisitedList_zero "else" ich hich
    have hz2 := numVisitedList_zero "else" ech hech
    have t1 := (tok_counts_list ich).2.2.2
    have t2 := (tok_counts_list ech).2.2.2
    simp [List.countP_cons, List.countP_append, ll_branch_line, ll_closed, t1, t2, hz1, hz2]

theorem c4_witness :
    process_children
      [Element.mk "if" [("condition", "x>0")] none [Element.mk "p" [] (some "a") []],
       Element.mk "else" [] none [Element.mk "p" [] (some "b") []]]
      = ["branch(if  condition=\"x>0\");", "path();", "output(a);", "path(else);",
         "output(b);", "bend();"]
    ∧ (["branch(if  condition=\"x>0\");", "path();", "output(a);", "path(else);",
         "output(b);"] : List String).countP (lineLeads "bend(") = 0 := by
  obtain ⟨h1, _⟩ := c4_if_else_bend "if" "else" [("condition", "x>0")] [] none none
    [Element.mk "p" [] (some "a") []] [Element.mk "p" [] (some "b") []]
    (by decide) (by decide)
    (by simp only [containsTagList, containsTag]; decide)
    (by simp only [containsTagList, containsTag]; decide)
  constructor
  · rw [h1]
    simp only [process_children, process_element]
    decide
  · decide

end POML
